import Mathlib

/-!
Shallow embedding of the portfolio position-reconstruction engine and the
TTL-cache layer of the cotacoesview repository (src/app.py and
src/predictor_model.py).  Decimal/float values of the source are modelled
as rationals; external effects (database reads, yfinance fetches, the news
HTTP call, the forecasting model) are passed in as explicit outcome
parameters of type Except or Option.
-/

set_option autoImplicit false

/-- Transaction kind, mirroring the tipo_operacao values COMPRA / VENDA. -/
inductive Tipo where
  | compra
  | venda
deriving DecidableEq, Repr

/-- One row of the transacoes table as consumed by
calcular_posicoes_carteira (src/app.py lines 626-652): symbol, kind,
quantity, unit price and fees, all converted to numbers. -/
structure Txn where
  simbolo : String
  tipo : Tipo
  quantidade : ℚ
  preco_unitario : ℚ
  custos_taxas : ℚ
deriving DecidableEq, Repr

/-- Per-symbol running lot state, mirroring the entries of estado_ativo
(src/app.py line 655): {quantidade, custo_acumulado}. -/
structure LotState where
  quantidade : ℚ
  custo_acumulado : ℚ
deriving DecidableEq, Repr

/-- The float tolerance 0.00001 of src/app.py line 670. -/
def epsilon : ℚ := 1 / 100000

/-- One transaction applied to one lot state, mirroring src/app.py lines
657-677 exactly: BUY adds quantity and quantity*price+fees; SELL with a
positive held quantity either closes proportionally (with the epsilon snap
of lines 670-672), or clamps an oversell to (0,0); a SELL against a
non-positive held quantity is ignored. -/
def applyTxn (st : LotState) (t : Txn) : LotState :=
  match t.tipo with
  | Tipo.compra =>
      ⟨st.quantidade + t.quantidade,
       st.custo_acumulado + (t.quantidade * t.preco_unitario + t.custos_taxas)⟩
  | Tipo.venda =>
      if 0 < st.quantidade then
        if t.quantidade ≤ st.quantidade then
          let custo_medio_atual := st.custo_acumulado / st.quantidade
          let custo_das_vendidas := t.quantidade * custo_medio_atual
          let q := st.quantidade - t.quantidade
          let c := st.custo_acumulado - (custo_das_vendidas + t.custos_taxas)
          if q ≤ epsilon then ⟨0, 0⟩ else ⟨q, c⟩
        else ⟨0, 0⟩
      else st

/-- Update of the estado_ativo mapping at one symbol, modelling the
dictionary update of src/app.py lines 654-655: a first-seen symbol is
inserted at the end with state (0, 0) before the update function runs. -/
def atualiza (m : List (String × LotState)) (s : String)
    (f : LotState → LotState) : List (String × LotState) :=
  match m with
  | [] => [(s, f ⟨0, 0⟩)]
  | (k, v) :: rest => if k = s then (k, f v) :: rest else (k, v) :: atualiza rest s f

/-- State of a symbol in the mapping; a symbol with no entry reads as the
initial state (0, 0), matching the initialisation of line 655. -/
def lookupEstado : List (String × LotState) → String → LotState
  | [], _ => ⟨0, 0⟩
  | (k, v) :: rest, s => if k = s then v else lookupEstado rest s

/-- One iteration of the replay loop of src/app.py lines 645-677. -/
def passo (m : List (String × LotState)) (t : Txn) : List (String × LotState) :=
  atualiza m t.simbolo (fun st => applyTxn st t)

/-- Full replay of an ordered transaction list, starting from the empty
estado_ativo of src/app.py line 643. -/
def processaTransacoes (txns : List Txn) : List (String × LotState) :=
  txns.foldl passo []

/-- The alias table SYMBOL_MAPPING of src/app.py lines 40-59, in source
order. -/
def SYMBOL_MAPPING : List (String × String) :=
  [("PETROBRAS", "PETR4.SA"),
   ("VALE", "VALE3.SA"),
   ("ITAU", "ITUB4.SA"),
   ("BRADESCO", "BBDC4.SA"),
   ("AMBEV", "ABEV3.SA"),
   ("B3", "B3SA3.SA"),
   ("WEG", "WEGE3.SA"),
   ("MAGALU", "MGLU3.SA"),
   ("AMERICANAS", "AMER3.SA"),
   ("ELETROBRAS", "ELET3.SA"),
   ("COSAN", "CSAN3.SA"),
   ("IBOVESPA", "^BVSP"),
   ("BITCOIN", "BTC-USD"),
   ("ETHEREUM", "ETH-USD"),
   ("OURO_FUTURO", "GC=F"),
   ("NASDAQ_COMPOSITE", "^IXIC"),
   ("RUMO S.A.", "RAIL3.SA"),
   ("DOW_JONES", "^DJI")]

/-- Dictionary assignment d[k] = v on an association list: replaces the
value of an existing key in place, appends a new key at the end. -/
def dicionarioGrava {κ α : Type} [DecidableEq κ]
    (m : List (κ × α)) (k : κ) (v : α) : List (κ × α) :=
  match m with
  | [] => [(k, v)]
  | (k2, v2) :: rest =>
      if k2 = k then (k, v) :: rest else (k2, v2) :: dicionarioGrava rest k v

/-- REVERSE_SYMBOL_MAPPING built by the loop of src/app.py lines 61-69:
each ticker maps back to its alias, and a ticker containing ".SA" also
registers its stripped form; the elif/else branches re-assign the same
key, as in the source. -/
def REVERSE_SYMBOL_MAPPING : List (String × String) :=
  SYMBOL_MAPPING.foldl
    (fun acc nt =>
      let acc := dicionarioGrava acc nt.2 nt.1
      if (nt.2.splitOn ".SA").length != 1 then
        dicionarioGrava acc (nt.2.replace ".SA" "") nt.1
      else if nt.2.contains '^' || nt.2.contains '-' || nt.2.contains '=' then
        dicionarioGrava acc nt.2 nt.1
      else
        dicionarioGrava acc nt.2 nt.1)
    []

/-- The upper() method of Python strings, over the character list (ASCII,
which covers every symbol the application handles). -/
def py_upper (s : String) : String := ⟨s.data.map Char.toUpper⟩

/-- The Python membership test c in s for a single character. -/
def py_contains (s : String) (c : Char) : Bool := s.data.contains c

/-- The endswith() method of Python strings. -/
def py_endswith (s suf : String) : Bool := suf.data.isSuffixOf s.data

/-- The isalnum() method of Python strings: non-empty and alphanumeric. -/
def py_isalnum (s : String) : Bool := !s.data.isEmpty && s.data.all Char.isAlphanum

/-- The known market suffix list of src/app.py line 522. -/
def SUFIXOS_MERCADO : List String :=
  [".SA", ".BA", ".TO", ".L", ".PA", ".AX", ".V", ".F"]

/-- The symbol canonicalization block inlined at src/app.py lines 519-524
(and identically at 545-550 and 591-596): exact case-insensitive alias
lookup first; an unmatched input that has none of the characters ^ - =
and no known market suffix, is alphanumeric and 4-6 characters long gets
".SA" appended and is uppercased; every other unmatched input is returned
verbatim (NOT uppercased). -/
def final_simbolo_to_fetch (simbolo : String) : String :=
  let final := (SYMBOL_MAPPING.lookup (py_upper simbolo)).getD simbolo
  if final = simbolo
      ∧ ¬ (py_contains simbolo '^' ∨ py_contains simbolo '-' ∨ py_contains simbolo '=')
      ∧ ¬ (SUFIXOS_MERCADO.any (fun suf => py_endswith (py_upper simbolo) suf)) then
    if 4 ≤ simbolo.length ∧ simbolo.length ≤ 6 ∧ py_isalnum simbolo then
      py_upper simbolo ++ ".SA"
    else final
  else final

/-- The add_transaction variant of the same block, src/app.py lines
1408-1414: the alias lookup there does not upper-case its argument (the
caller upper-cased the whole input at line 1317), and the final result is
upper-cased before being stored. -/
def simbolo_ativo_yf (s : String) : String :=
  let final := (SYMBOL_MAPPING.lookup s).getD s
  let final :=
    if final = s
        ∧ ¬ (py_contains s '^' ∨ py_contains s '-' ∨ py_contains s '=')
        ∧ ¬ (SUFIXOS_MERCADO.any (fun suf => py_endswith (py_upper s) suf)) then
      if 4 ≤ s.length ∧ s.length ≤ 6 ∧ py_isalnum s then
        py_upper s ++ ".SA"
      else final
    else final
  py_upper final

/-- The reverse lookup used for nome_popular at src/app.py line 701. -/
def nome_popular (simbolo : String) : String :=
  (REVERSE_SYMBOL_MAPPING.lookup simbolo).getD ((simbolo.replace ".SA" "").toUpper)

/-- One position record of the posicoes dictionary, src/app.py lines
694-704, with its duplicated convenience fields. -/
structure Posicao where
  quantidade : ℚ
  preco_medio : ℚ
  preco_atual : Option ℚ
  preco_previsto : Option ℚ
  valor_atual : ℚ
  lucro_prejuizo_nao_realizado : ℚ
  nome_pop : String
  quantidade_total : ℚ
  valor_total_ativo : ℚ
deriving DecidableEq, Repr

/-- The aggregation loop of src/app.py lines 679-711 over the final
estado_ativo: a position is emitted for every symbol with positive
quantity; the current and predicted price fetches are passed in as
oracles that may raise (the prediction gateway can, see
get_predicted_price_for_display); an unknown current price contributes
valor_atual = 0 and lucro = 0; totals accumulate valor_atual, the
positive lucro values and the non-positive lucro values. -/
def montaPosicoes (precoAtualDe precoPrevistoDe : String → Except Unit (Option ℚ)) :
    List (String × LotState) → Except Unit (List (String × Posicao) × ℚ × ℚ × ℚ)
  | [] => Except.ok ([], 0, 0, 0)
  | (simbolo, dados) :: resto =>
      if 0 < dados.quantidade then
        match precoAtualDe simbolo with
        | Except.error e => Except.error e
        | Except.ok preco_atual =>
            match precoPrevistoDe simbolo with
            | Except.error e => Except.error e
            | Except.ok preco_previsto =>
                match montaPosicoes precoAtualDe precoPrevistoDe resto with
                | Except.error e => Except.error e
                | Except.ok (pos, tv, tg, tl) =>
                    let preco_medio := dados.custo_acumulado / dados.quantidade
                    let lucro :=
                      match preco_atual with
                      | some pa => (pa - preco_medio) * dados.quantidade
                      | none => 0
                    let valor :=
                      match preco_atual with
                      | some pa => pa * dados.quantidade
                      | none => 0
                    Except.ok
                      ((simbolo,
                        ⟨dados.quantidade, preco_medio, preco_atual, preco_previsto,
                         valor, lucro, nome_popular simbolo,
                         dados.quantidade, valor⟩) :: pos,
                       valor + tv,
                       (if 0 < lucro then lucro else 0) + tg,
                       (if 0 < lucro then 0 else lucro) + tl)
      else montaPosicoes precoAtualDe precoPrevistoDe resto

/-- A TTL cache dictionary: key, stored data, and the timestamp written
next to it (src/app.py lines 77-96). -/
abbrev Cache (κ α : Type) : Type := List (κ × α × ℚ)

def cacheBusca {κ α : Type} [DecidableEq κ] : Cache κ α → κ → Option (α × ℚ)
  | [], _ => none
  | (k, d, ts) :: rest, key => if k = key then some (d, ts) else cacheBusca rest key

/-- is_cache_fresh of src/app.py lines 90-96: a key is fresh iff present
and now - timestamp < ttl. -/
def is_cache_fresh {κ α : Type} [DecidableEq κ]
    (cache : Cache κ α) (key : κ) (ttl now : ℚ) : Bool :=
  match cacheBusca cache key with
  | some (_, ts) => decide (now - ts < ttl)
  | none => false

/-- Dictionary assignment cache[key] = {'data': d, 'timestamp': now}. -/
def cacheGrava {κ α : Type} [DecidableEq κ]
    (cache : Cache κ α) (key : κ) (d : α) (now : ℚ) : Cache κ α :=
  match cache with
  | [] => [(key, d, now)]
  | (k, v, ts) :: rest =>
      if k = key then (key, d, now) :: rest else (k, v, ts) :: cacheGrava rest key d now

def MARKET_DATA_CACHE_TTL : ℚ := 300
def NEWS_CACHE_TTL : ℚ := 3600
def PORTFOLIO_CACHE_TTL : ℚ := 120
def PREDICTION_CACHE_TTL : ℚ := 600

/-- get_historical_prices_yfinance_cached, src/app.py lines 518-540.  The
price series is the Close column, one optional rational per row (none for
NaN); the yfinance call outcome arrives as resultado_fetch (error = the
call raised).  Returns the series (empty on failure) and the updated
cache: the result is written only when the fetched frame is non-empty. -/
def get_historical_prices_yfinance_cached
    (cache : Cache (String × String × String) (List (Option ℚ))) (now : ℚ)
    (resultado_fetch : Except Unit (List (Option ℚ)))
    (simbolo period interval : String) :
    List (Option ℚ) × Cache (String × String × String) (List (Option ℚ)) :=
  let cache_key := (final_simbolo_to_fetch simbolo, period, interval)
  if is_cache_fresh cache cache_key MARKET_DATA_CACHE_TTL now then
    (((cacheBusca cache cache_key).map Prod.fst).getD [], cache)
  else
    match resultado_fetch with
    | Except.ok df_hist =>
        if !df_hist.isEmpty then (df_hist, cacheGrava cache cache_key df_hist now)
        else ([], cache)
    | Except.error _ => ([], cache)

/-- _get_current_price_yfinance, src/app.py lines 544-586: intraday fetch,
falling back to a 5-day daily fetch when the intraday frame is empty; the
latest Close value is returned and cached; an empty result, a NaN latest
value (modelled as none) or any raised error yields none and leaves the
cache untouched.  In the source this shares the market_data_cache
dictionary with the history entries; its entries are the ones keyed
(symbol, "1d", "1m") that hold a bare price. -/
def _get_current_price_yfinance
    (cache : Cache (String × String × String) ℚ) (now : ℚ)
    (fetch_intraday fetch_diario : Except Unit (List (Option ℚ)))
    (simbolo : String) :
    Option ℚ × Cache (String × String × String) ℚ :=
  let cache_key := (final_simbolo_to_fetch simbolo, "1d", "1m")
  if is_cache_fresh cache cache_key MARKET_DATA_CACHE_TTL now then
    ((cacheBusca cache cache_key).map Prod.fst, cache)
  else
    match fetch_intraday with
    | Except.error _ => (none, cache)
    | Except.ok hist0 =>
        match (if hist0.isEmpty then fetch_diario else Except.ok hist0) with
        | Except.error _ => (none, cache)
        | Except.ok hist =>
            match hist.getLast? with
            | none => (none, cache)
            | some latest =>
                match latest with
                | none => (none, cache)
                | some preco => (some preco, cacheGrava cache cache_key preco now)

def N_DAYS : ℕ := 5

/-- train_and_predict_price, src/predictor_model.py lines 16-106, with the
two historical fetch results passed in (the 1-year training series and the
trailing N_DAYS+5-day series) and the fitted linear model abstracted as a
function of the cleaned training closes and the last N_DAYS closes.  A
short or empty training series returns none (lines 37-47); the emptiness
check after lag creation (line 55) cannot fire once the cleaned series has
at least N_DAYS+1 rows.  A failed or empty trailing fetch returns the
empty pd.DataFrame(), which has no Close column, so the column access at
line 82 raises KeyError - nothing in the file catches it, hence the error
outcome. -/
def train_and_predict_price (hist_1y hist_ultimos : List (Option ℚ))
    (modelo : List ℚ → List ℚ → ℚ) : Except Unit (Option ℚ) :=
  if hist_1y.length < N_DAYS + 1 then Except.ok none
  else
    let close_1y := hist_1y.filterMap id
    if close_1y.length < N_DAYS + 1 then Except.ok none
    else if hist_ultimos.isEmpty then Except.error ()
    else
      let close_ultimos := hist_ultimos.filterMap id
      if close_ultimos.length < N_DAYS then Except.ok none
      else
        Except.ok (some (modelo close_1y
          (close_ultimos.drop (close_ultimos.length - N_DAYS))))

/-- get_predicted_price_for_display, src/app.py lines 590-610: prediction
cache check first; on a miss the model outcome is consulted - a none
result is returned uncached, a price is cached and returned, and a raised
exception propagates, because lines 603-610 contain no try/except. -/
def get_predicted_price_for_display (cache : Cache String ℚ) (now : ℚ)
    (resultado_modelo : Except Unit (Option ℚ)) (simbolo : String) :
    Except Unit (Option ℚ × Cache String ℚ) :=
  let cache_key := final_simbolo_to_fetch simbolo
  if is_cache_fresh cache cache_key PREDICTION_CACHE_TTL now then
    Except.ok ((cacheBusca cache cache_key).map Prod.fst, cache)
  else
    match resultado_modelo with
    | Except.error e => Except.error e
    | Except.ok none => Except.ok (none, cache)
    | Except.ok (some p) => Except.ok (some p, cacheGrava cache cache_key p now)

/-- One news article as filtered by fetch_news (src/app.py lines 744-753);
absent title/description/url fields are none. -/
structure Artigo where
  title : Option String
  description : Option String
  url : Option String
  source : Option String
deriving DecidableEq, Repr

/-- fetch_news, src/app.py lines 724-761: news cache check, api-key guard,
then the HTTP call whose outcome is resposta; on success the articles with
a title, a description and a url are kept and the filtered list is stored
in the cache unconditionally - also when it is empty (line 754); a raised
request or JSON error returns [] without touching the cache. -/
def fetch_news (cache : Cache String (List Artigo)) (now : ℚ)
    (api_key : Option String) (resposta : Except Unit (List Artigo))
    (query : String) :
    List Artigo × Cache String (List Artigo) :=
  if is_cache_fresh cache query NEWS_CACHE_TTL now then
    (((cacheBusca cache query).map Prod.fst).getD [], cache)
  else
    match api_key with
    | none => ([], cache)
    | some _ =>
        match resposta with
        | Except.error _ => ([], cache)
        | Except.ok articles =>
            let filtered_articles := articles.filter
              (fun art => art.title.isSome && art.description.isSome && art.url.isSome)
            (filtered_articles, cacheGrava cache query filtered_articles now)

/-- The portfolio snapshot tuple returned by calcular_posicoes_carteira:
(posicoes, total_valor_carteira, total_lucro_nao_realizado,
total_prejuizo_nao_realizado). -/
abbrev Snapshot : Type := List (String × Posicao) × ℚ × ℚ × ℚ

/-- The body of the big try of calcular_posicoes_carteira, src/app.py
lines 624-711: read the transaction log, replay it, aggregate. -/
def corpo_calculo (transacoes_db : Except Unit (List Txn))
    (precoAtualDe precoPrevistoDe : String → Except Unit (Option ℚ)) :
    Except Unit Snapshot :=
  match transacoes_db with
  | Except.error e => Except.error e
  | Except.ok todas_transacoes =>
      montaPosicoes precoAtualDe precoPrevistoDe (processaTransacoes todas_transacoes)

/-- calcular_posicoes_carteira, src/app.py lines 613-721: portfolio cache
check; on a miss the body runs under the try of lines 624-713 - any raised
error yields the empty snapshot ({}, 0.0, 0.0, 0.0) and leaves the
portfolio cache untouched (the write at lines 717-720 happens only on
success). -/
def calcular_posicoes_carteira (cache : Cache ℕ Snapshot) (now : ℚ) (user_id : ℕ)
    (transacoes_db : Except Unit (List Txn))
    (precoAtualDe precoPrevistoDe : String → Except Unit (Option ℚ)) :
    Snapshot × Cache ℕ Snapshot :=
  if is_cache_fresh cache user_id PORTFOLIO_CACHE_TTL now then
    (((cacheBusca cache user_id).map Prod.fst).getD ([], 0, 0, 0), cache)
  else
    match corpo_calculo transacoes_db precoAtualDe precoPrevistoDe with
    | Except.error _ => (([], 0, 0, 0), cache)
    | Except.ok dados => (dados, cacheGrava cache user_id dados now)

theorem lookupEstado_atualiza (m : List (String × LotState)) (s s' : String)
    (f : LotState → LotState) :
    lookupEstado (atualiza m s f) s' =
      if s' = s then f (lookupEstado m s) else lookupEstado m s' := by
  induction m with
  | nil =>
      by_cases h : s' = s
      · subst h; simp [atualiza, lookupEstado]
      · have h2 : ¬ s = s' := fun hs => h hs.symm
        simp [atualiza, lookupEstado, h, h2]
  | cons kv rest ih =>
      obtain ⟨k, v⟩ := kv
      by_cases hk : k = s
      · subst hk
        by_cases h : s' = k
        · subst h; simp [atualiza, lookupEstado]
        · have h2 : ¬ k = s' := fun hs => h hs.symm
          simp [atualiza, lookupEstado, h, h2]
      · by_cases h : s' = k
        · have hs : ¬ s' = s := fun hss => hk (by rw [← hss, ← h])
          have h1 : k = s' := h.symm
          simp [atualiza, lookupEstado, hk, h1, hs]
        · have h2 : ¬ k = s' := fun hs => h hs.symm
          simp [atualiza, lookupEstado, hk, h2, ih]

/-- Generic preservation of a per-state predicate along the replay loop. -/
theorem foldl_preserva (P : LotState → Prop) (ok : Txn → Prop)
    (hstep : ∀ st t, P st → ok t → P (applyTxn st t)) :
    ∀ (txns : List Txn) (m : List (String × LotState)),
      (∀ t ∈ txns, ok t) → (∀ s, P (lookupEstado m s)) →
      ∀ s, P (lookupEstado (txns.foldl passo m) s) := by
  intro txns
  induction txns with
  | nil => intro m _ hm s; exact hm s
  | cons t ts ih =>
      intro m hok hm s
      simp only [List.foldl_cons]
      refine ih (passo m t) (fun u hu => hok u (List.mem_cons_of_mem t hu)) ?_ s
      intro s'
      unfold passo
      rw [lookupEstado_atualiza]
      by_cases h : s' = t.simbolo
      · simp only [h, if_pos rfl]
        exact hstep _ _ (hm t.simbolo) (hok t (List.mem_cons_self t ts))
      · simp only [if_neg h]
        exact hm s'

theorem applyTxn_quantidade_nonneg (st : LotState) (t : Txn)
    (h0 : 0 ≤ st.quantidade) (hq : 0 ≤ t.quantidade) :
    0 ≤ (applyTxn st t).quantidade := by
  unfold applyTxn
  cases t.tipo with
  | compra => exact add_nonneg h0 hq
  | venda =>
      by_cases h1 : 0 < st.quantidade
      · by_cases h2 : t.quantidade ≤ st.quantidade
        · simp only [if_pos h1, if_pos h2]
          by_cases h3 : st.quantidade - t.quantidade ≤ epsilon
          · simp [h3]
          · simp only [if_neg h3]
            have : epsilon < st.quantidade - t.quantidade := lt_of_not_le h3
            have heps : (0:ℚ) < epsilon := by norm_num [epsilon]
            exact le_of_lt (lt_trans heps this)
        · simp [if_pos h1, if_neg h2]
      · simpa [if_neg h1] using h0

theorem applyTxn_custo_zero (st : LotState) (t : Txn)
    (h0 : 0 ≤ st.quantidade)
    (hz : st.quantidade = 0 → st.custo_acumulado = 0)
    (hq : 0 < t.quantidade) :
    (applyTxn st t).quantidade = 0 → (applyTxn st t).custo_acumulado = 0 := by
  unfold applyTxn
  cases t.tipo with
  | compra =>
      intro h
      exfalso
      have : 0 < st.quantidade + t.quantidade := add_pos_of_nonneg_of_pos h0 hq
      simp only at h
      rw [h] at this
      exact lt_irrefl 0 this
  | venda =>
      by_cases h1 : 0 < st.quantidade
      · by_cases h2 : t.quantidade ≤ st.quantidade
        · simp only [if_pos h1, if_pos h2]
          by_cases h3 : st.quantidade - t.quantidade ≤ epsilon
          · simp [h3]
          · simp only [if_neg h3]
            intro h
            exfalso
            have heps : (0:ℚ) < epsilon := by norm_num [epsilon]
            have : epsilon < st.quantidade - t.quantidade := lt_of_not_le h3
            rw [h] at this
            exact lt_irrefl _ (lt_trans heps this)
        · simp [if_pos h1, if_neg h2]
      · simp only [if_neg h1]
        have hst : st.quantidade = 0 := le_antisymm (le_of_not_lt h1) h0
        intro _
        exact hz hst

theorem applyTxn_custo_nonneg (st : LotState) (t : Txn)
    (h0 : 0 ≤ st.quantidade) (hc : 0 ≤ st.custo_acumulado)
    (hq : 0 ≤ t.quantidade) (hp : 0 ≤ t.preco_unitario)
    (hfb : t.tipo = Tipo.compra → 0 ≤ t.custos_taxas)
    (hfv : t.tipo = Tipo.venda → t.custos_taxas = 0) :
    0 ≤ (applyTxn st t).custo_acumulado := by
  unfold applyTxn
  cases htipo : t.tipo with
  | compra =>
      have hf := hfb htipo
      have : 0 ≤ t.quantidade * t.preco_unitario + t.custos_taxas :=
        add_nonneg (mul_nonneg hq hp) hf
      simpa using add_nonneg hc this
  | venda =>
      have hf := hfv htipo
      by_cases h1 : 0 < st.quantidade
      · by_cases h2 : t.quantidade ≤ st.quantidade
        · simp only [if_pos h1, if_pos h2]
          by_cases h3 : st.quantidade - t.quantidade ≤ epsilon
          · simp [h3]
          · simp only [if_neg h3, hf, add_zero]
            have hdiv : 0 ≤ st.custo_acumulado / st.quantidade := div_nonneg hc (le_of_lt h1)
            have hmul : t.quantidade * (st.custo_acumulado / st.quantidade) ≤
                st.quantidade * (st.custo_acumulado / st.quantidade) :=
              mul_le_mul_of_nonneg_right h2 hdiv
            have hcancel : st.quantidade * (st.custo_acumulado / st.quantidade) =
                st.custo_acumulado := by
              field_simp
            rw [hcancel] at hmul
            simpa using sub_nonneg.mpr hmul
        · simp [if_pos h1, if_neg h2]
      · simpa [if_neg h1] using hc

/-- C1 (counterexample): the claim says a SELL with 0 < q ≤ held always
subtracts q from the quantity and (q * avg_pre + fees) from the accumulated
cost.  A full close with fees falsifies it: from state (10, 1005), selling
10 with fees 2 the claimed arithmetic leaves cost 1005 - (10*100.5 + 2) =
-2, but the code (src/app.py lines 670-672) snaps the state to exactly
(0, 0) because the post-sale quantity is ≤ 0.00001. -/
theorem c1_counterexample :
    applyTxn ⟨10, 1005⟩ ⟨"PETR4.SA", Tipo.venda, 10, 150, 2⟩ = ⟨0, 0⟩ ∧
    (1005 : ℚ) - (10 * ((1005 : ℚ) / 10) + 2) ≠ 0 := by
  constructor
  · norm_num [applyTxn, epsilon]
  · norm_num

/-- C1 (amended): BUY adds q to the quantity and q*p + fees to the
accumulated cost; SELL with 0 < q ≤ held subtracts q from the quantity and
(q * avg_pre + fees) from the accumulated cost, except that when the
post-sale quantity is ≤ 0.00001 both fields are snapped to exactly zero;
and the concrete scenario buy 10 @ 100 fees 5 then sell 4 @ 150 fees 2
ends with quantity 6 and accumulated cost 601. -/
theorem c1_weighted_average_replay (st : LotState) (s : String) (q p f : ℚ)
    (h1 : 0 < st.quantidade) (h2 : q ≤ st.quantidade) :
    applyTxn st ⟨s, Tipo.compra, q, p, f⟩ =
      ⟨st.quantidade + q, st.custo_acumulado + (q * p + f)⟩ ∧
    applyTxn st ⟨s, Tipo.venda, q, p, f⟩ =
      (if st.quantidade - q ≤ epsilon then ⟨0, 0⟩
       else ⟨st.quantidade - q,
             st.custo_acumulado - (q * (st.custo_acumulado / st.quantidade) + f)⟩) ∧
    lookupEstado (processaTransacoes
        [⟨"PETR4.SA", Tipo.compra, 10, 100, 5⟩,
         ⟨"PETR4.SA", Tipo.venda, 4, 150, 2⟩]) "PETR4.SA" = ⟨6, 601⟩ := by
  refine ⟨rfl, ?_, ?_⟩
  · simp only [applyTxn, if_pos h1, if_pos h2]
  · norm_num [processaTransacoes, passo, atualiza, lookupEstado, applyTxn, epsilon]

/-- Witness for C1 at the concrete state (10, 1005) with q = 4. -/
theorem c1_weighted_average_replay_witness :
    (0 : ℚ) < 10 ∧ (4 : ℚ) ≤ 10 ∧
    (applyTxn ⟨10, 1005⟩ ⟨"PETR4.SA", Tipo.compra, 4, 150, 2⟩ =
        ⟨10 + 4, 1005 + (4 * 150 + 2)⟩ ∧
     applyTxn ⟨10, 1005⟩ ⟨"PETR4.SA", Tipo.venda, 4, 150, 2⟩ =
        (if (10 : ℚ) - 4 ≤ epsilon then ⟨0, 0⟩
         else ⟨(10 : ℚ) - 4, 1005 - (4 * ((1005 : ℚ) / 10) + 2)⟩) ∧
     lookupEstado (processaTransacoes
        [⟨"PETR4.SA", Tipo.compra, 10, 100, 5⟩,
         ⟨"PETR4.SA", Tipo.venda, 4, 150, 2⟩]) "PETR4.SA" = ⟨6, 601⟩) :=
  ⟨by norm_num, by norm_num,
   c1_weighted_average_replay ⟨10, 1005⟩ "PETR4.SA" 4 150 2 (by norm_num) (by norm_num)⟩

/-- C2: replaying any transaction list whose quantities are non-negative
keeps every symbol's running quantity non-negative after every prefix of
the replay (src/app.py lines 645-677). -/
theorem c2_quantidade_nao_negativa (txns : List Txn)
    (hq : ∀ t ∈ txns, 0 ≤ t.quantidade) :
    ∀ (n : ℕ) (s : String),
      0 ≤ (lookupEstado (processaTransacoes (txns.take n)) s).quantidade := by
  intro n s
  unfold processaTransacoes
  refine foldl_preserva (fun st => 0 ≤ st.quantidade) (fun t => 0 ≤ t.quantidade)
    (fun st t hst hok => applyTxn_quantidade_nonneg st t hst hok)
    (txns.take n) [] (fun t ht => hq t (List.take_subset n txns ht)) ?_ s
  intro s'
  simp [lookupEstado]

/-- Witness for C2 on a concrete two-transaction history. -/
theorem c2_quantidade_nao_negativa_witness :
    (∀ t ∈ [Txn.mk "PETR4.SA" Tipo.compra 10 100 5,
            Txn.mk "PETR4.SA" Tipo.venda 4 150 2], 0 ≤ t.quantidade) ∧
    0 ≤ (lookupEstado (processaTransacoes
        ([Txn.mk "PETR4.SA" Tipo.compra 10 100 5,
          Txn.mk "PETR4.SA" Tipo.venda 4 150 2].take 2)) "PETR4.SA").quantidade :=
  ⟨by intro t ht; fin_cases ht <;> norm_num,
   c2_quantidade_nao_negativa _ (by intro t ht; fin_cases ht <;> norm_num) 2 "PETR4.SA"⟩

/-- C3: replaying any transaction list whose quantities are positive keeps
the invariant that a symbol with running quantity zero has accumulated
cost exactly zero, after every prefix of the replay; a fee-bearing full
close lands on exactly (0, 0) through the epsilon snap of src/app.py
lines 670-672. -/
theorem c3_custo_zero_quando_quantidade_zero (txns : List Txn)
    (hq : ∀ t ∈ txns, 0 < t.quantidade) :
    ∀ (n : ℕ) (s : String),
      (lookupEstado (processaTransacoes (txns.take n)) s).quantidade = 0 →
      (lookupEstado (processaTransacoes (txns.take n)) s).custo_acumulado = 0 := by
  intro n s
  unfold processaTransacoes
  have h := foldl_preserva
    (fun st => 0 ≤ st.quantidade ∧ (st.quantidade = 0 → st.custo_acumulado = 0))
    (fun t => 0 < t.quantidade)
    (fun st t hst hok =>
      ⟨applyTxn_quantidade_nonneg st t hst.1 (le_of_lt hok),
       applyTxn_custo_zero st t hst.1 hst.2 hok⟩)
    (txns.take n) [] (fun t ht => hq t (List.take_subset n txns ht))
    (by intro s'; simp [lookupEstado])
  exact (h s).2

/-- Witness for C3: a fee-bearing full close ends at quantity 0 and the
invariant gives cost 0 there. -/
theorem c3_custo_zero_quando_quantidade_zero_witness :
    (∀ t ∈ [Txn.mk "PETR4.SA" Tipo.compra 10 100 5,
            Txn.mk "PETR4.SA" Tipo.venda 10 150 2], 0 < t.quantidade) ∧
    ((lookupEstado (processaTransacoes
        ([Txn.mk "PETR4.SA" Tipo.compra 10 100 5,
          Txn.mk "PETR4.SA" Tipo.venda 10 150 2].take 2)) "PETR4.SA").quantidade = 0 →
     (lookupEstado (processaTransacoes
        ([Txn.mk "PETR4.SA" Tipo.compra 10 100 5,
          Txn.mk "PETR4.SA" Tipo.venda 10 150 2].take 2)) "PETR4.SA").custo_acumulado = 0) :=
  ⟨by intro t ht; fin_cases ht <;> norm_num,
   c3_custo_zero_quando_quantidade_zero _ (by intro t ht; fin_cases ht <;> norm_num) 2 "PETR4.SA"⟩

/-- C4 (counterexample): the claim says the running accumulated cost is
non-negative at every point, in particular after a partial SELL whose fees
exceed the remaining cost basis.  Exactly there the code goes negative:
buy 10 @ 1 fees 0, then sell 9 with fees 100 leaves quantity 1 and
accumulated cost 10 - (9*1 + 100) = -99 (src/app.py lines 660-672 have no
lower clamp on custo_acumulado in the partial-close branch). -/
theorem c4_counterexample :
    (lookupEstado (processaTransacoes
        [Txn.mk "X" Tipo.compra 10 1 0,
         Txn.mk "X" Tipo.venda 9 1 100]) "X").custo_acumulado < 0 := by
  norm_num [processaTransacoes, passo, atualiza, lookupEstado, applyTxn, epsilon]

/-- C4 (amended): the running accumulated cost stays non-negative after
every prefix of the replay provided quantities and prices are non-negative,
buy fees are non-negative and every SELL carries zero fees; positive sell
fees can drive it negative, as the counterexample shows. -/
theorem c4_custo_nao_negativo (txns : List Txn)
    (h : ∀ t ∈ txns, 0 ≤ t.quantidade ∧ 0 ≤ t.preco_unitario ∧
         (t.tipo = Tipo.compra → 0 ≤ t.custos_taxas) ∧
         (t.tipo = Tipo.venda → t.custos_taxas = 0)) :
    ∀ (n : ℕ) (s : String),
      0 ≤ (lookupEstado (processaTransacoes (txns.take n)) s).custo_acumulado := by
  intro n s
  unfold processaTransacoes
  have hfold := foldl_preserva
    (fun st => 0 ≤ st.quantidade ∧ 0 ≤ st.custo_acumulado)
    (fun t => 0 ≤ t.quantidade ∧ 0 ≤ t.preco_unitario ∧
      (t.tipo = Tipo.compra → 0 ≤ t.custos_taxas) ∧
      (t.tipo = Tipo.venda → t.custos_taxas = 0))
    (fun st t hst hok =>
      ⟨applyTxn_quantidade_nonneg st t hst.1 hok.1,
       applyTxn_custo_nonneg st t hst.1 hst.2 hok.1 hok.2.1 hok.2.2.1 hok.2.2.2⟩)
    (txns.take n) [] (fun t ht => h t (List.take_subset n txns ht))
    (by intro s'; simp [lookupEstado])
  exact (hfold s).2

/-- Witness for C4 (amended) on a concrete fee-free sell history. -/
theorem c4_custo_nao_negativo_witness :
    (∀ t ∈ [Txn.mk "PETR4.SA" Tipo.compra 10 100 5,
            Txn.mk "PETR4.SA" Tipo.venda 4 150 0],
        0 ≤ t.quantidade ∧ 0 ≤ t.preco_unitario ∧
        (t.tipo = Tipo.compra → 0 ≤ t.custos_taxas) ∧
        (t.tipo = Tipo.venda → t.custos_taxas = 0)) ∧
    0 ≤ (lookupEstado (processaTransacoes
        ([Txn.mk "PETR4.SA" Tipo.compra 10 100 5,
          Txn.mk "PETR4.SA" Tipo.venda 4 150 0].take 2)) "PETR4.SA").custo_acumulado :=
  ⟨by intro t ht; fin_cases ht <;> norm_num <;> decide,
   c4_custo_nao_negativo _ (by intro t ht; fin_cases ht <;> norm_num <;> decide) 2 "PETR4.SA"⟩

def chaves (m : List (String × LotState)) : List String := m.map Prod.fst

theorem chaves_atualiza (m : List (String × LotState)) (s : String)
    (f : LotState → LotState) :
    chaves (atualiza m s f) =
      if s ∈ chaves m then chaves m else chaves m ++ [s] := by
  induction m with
  | nil => simp [atualiza, chaves]
  | cons kv rest ih =>
      obtain ⟨k, v⟩ := kv
      by_cases hk : k = s
      · subst hk
        simp [atualiza, chaves]
      · have hks : ¬ s = k := fun hs => hk hs.symm
        simp only [atualiza, if_neg hk, chaves, List.map_cons] at ih ⊢
        rw [ih]
        by_cases hmem : s ∈ List.map Prod.fst rest
        · simp [hmem, hks]
        · simp [hmem, hks]

theorem nodup_chaves_atualiza (m : List (String × LotState)) (s : String)
    (f : LotState → LotState) (h : (chaves m).Nodup) :
    (chaves (atualiza m s f)).Nodup := by
  rw [chaves_atualiza]
  by_cases hmem : s ∈ chaves m
  · simpa [hmem] using h
  · simp [hmem, List.nodup_append, h]

theorem nodup_chaves_processa (txns : List Txn) :
    (chaves (processaTransacoes txns)).Nodup := by
  unfold processaTransacoes
  have : ∀ (l : List Txn) (m : List (String × LotState)),
      (chaves m).Nodup → (chaves (l.foldl passo m)).Nodup := by
    intro l
    induction l with
    | nil => intro m hm; exact hm
    | cons t ts ih =>
        intro m hm
        simp only [List.foldl_cons]
        exact ih (passo m t) (nodup_chaves_atualiza m t.simbolo _ hm)
  exact this txns [] (by simp [chaves])

theorem lookupEstado_de_mem (m : List (String × LotState)) (s : String)
    (st : LotState) (hnd : (chaves m).Nodup) (hm : (s, st) ∈ m) :
    lookupEstado m s = st := by
  induction m with
  | nil => cases hm
  | cons kv rest ih =>
      obtain ⟨k, v⟩ := kv
      rcases List.mem_cons.mp hm with heq | hrest
      · obtain ⟨hs, hv⟩ := Prod.mk.injEq .. ▸ heq
        injection heq with h1 h2
        simp [lookupEstado, h1.symm, h2]
      · have hk : ¬ k = s := by
          intro hks
          subst hks
          have : k ∈ chaves rest := List.mem_map.mpr ⟨(k, st), hrest, rfl⟩
          exact (List.nodup_cons.mp (by simpa [chaves] using hnd)).1 this
        simp only [lookupEstado, if_neg hk]
        exact ih (List.nodup_cons.mp (by simpa [chaves] using hnd)).2 hrest

theorem montaPosicoes_mem (pA pP : String → Except Unit (Option ℚ))
    (estado : List (String × LotState)) (pos : List (String × Posicao))
    (tv tg tl : ℚ)
    (h : montaPosicoes pA pP estado = Except.ok (pos, tv, tg, tl)) :
    ∀ s p, (s, p) ∈ pos → ∃ st, (s, st) ∈ estado ∧ 0 < st.quantidade := by
  induction estado generalizing pos tv tg tl with
  | nil =>
      simp only [montaPosicoes, Except.ok.injEq] at h
      obtain ⟨h1, -⟩ := Prod.mk.injEq .. ▸ h
      intro s p hp
      rw [← h1] at hp
      cases hp
  | cons kv resto ih =>
      obtain ⟨s0, st0⟩ := kv
      by_cases h0 : 0 < st0.quantidade
      · simp only [montaPosicoes, if_pos h0] at h
        cases hpa : pA s0 with
        | error e => rw [hpa] at h; cases h
        | ok preco_atual =>
            rw [hpa] at h
            cases hpp : pP s0 with
            | error e => rw [hpp] at h; cases h
            | ok preco_previsto =>
                rw [hpp] at h
                cases hres : montaPosicoes pA pP resto with
                | error e => rw [hres] at h; cases h
                | ok resto_res =>
                    obtain ⟨pos1, tv1, tg1, tl1⟩ := resto_res
                    rw [hres] at h
                    simp only [Except.ok.injEq, Prod.mk.injEq] at h
                    obtain ⟨hpos, -, -, -⟩ := h
                    intro s p hp
                    rw [← hpos] at hp
                    rcases List.mem_cons.mp hp with heq | hrest
                    · injection heq with h1 h2
                      exact ⟨st0, by simp [h1.symm], h0⟩
                    · obtain ⟨st, hmem, hq⟩ := ih pos1 tv1 tg1 tl1 hres s p hrest
                      exact ⟨st, List.mem_cons_of_mem _ hmem, hq⟩
      · simp only [montaPosicoes, if_neg h0] at h
        intro s p hp
        obtain ⟨st, hmem, hq⟩ := ih pos tv tg tl h s p hp
        exact ⟨st, List.mem_cons_of_mem _ hmem, hq⟩

/-- C5: a SELL whose quantity strictly exceeds a positive held quantity
clamps the lot to (0, 0) without error (src/app.py lines 673-675); a SELL
against a zero held quantity leaves the state unchanged (line 677); and a
symbol whose final quantity is 0 does not appear in the position map
produced by the aggregation loop (line 680 only emits quantities > 0). -/
theorem c5_oversell_e_venda_sem_posicao
    (st1 st2 : LotState) (t1 t2 : Txn) (txns : List Txn)
    (pA pP : String → Option ℚ) (pos : List (String × Posicao))
    (tv tg tl : ℚ) (s : String)
    (hv1 : t1.tipo = Tipo.venda) (h1 : 0 < st1.quantidade)
    (hlt : st1.quantidade < t1.quantidade)
    (hv2 : t2.tipo = Tipo.venda) (h2 : st2.quantidade = 0)
    (hok : montaPosicoes (fun u => Except.ok (pA u)) (fun u => Except.ok (pP u))
        (processaTransacoes txns) = Except.ok (pos, tv, tg, tl))
    (hq0 : (lookupEstado (processaTransacoes txns) s).quantidade = 0) :
    applyTxn st1 t1 = ⟨0, 0⟩ ∧ applyTxn st2 t2 = st2 ∧ s ∉ pos.map Prod.fst := by
  refine ⟨?_, ?_, ?_⟩
  · unfold applyTxn
    rw [hv1]
    rw [if_pos h1, if_neg (not_le.mpr hlt)]
  · unfold applyTxn
    rw [hv2]
    have hng : ¬ 0 < st2.quantidade := by rw [h2]; exact lt_irrefl 0
    rw [if_neg hng]
  · intro hmem
    obtain ⟨⟨s', p⟩, hp, hfst⟩ := List.mem_map.mp hmem
    rw [show s' = s from hfst] at hp
    obtain ⟨st, hmem2, hqpos⟩ :=
      montaPosicoes_mem _ _ _ _ _ _ _ hok s p hp
    have := lookupEstado_de_mem _ s st (nodup_chaves_processa txns) hmem2
    rw [this] at hq0
    rw [hq0] at hqpos
    exact lt_irrefl 0 hqpos

/-- Witness for C5: oversell from (5, 10) by 7, a sell against (0, 0), and
the fully closed history buy 1 / sell 1 of symbol X, whose position map is
empty. -/
theorem c5_oversell_e_venda_sem_posicao_witness :
    applyTxn ⟨5, 10⟩ ⟨"X", Tipo.venda, 7, 1, 0⟩ = ⟨0, 0⟩ ∧
    applyTxn ⟨0, 0⟩ ⟨"X", Tipo.venda, 3, 1, 0⟩ = ⟨0, 0⟩ ∧
    "X" ∉ ([] : List (String × Posicao)).map Prod.fst :=
  c5_oversell_e_venda_sem_posicao ⟨5, 10⟩ ⟨0, 0⟩
    ⟨"X", Tipo.venda, 7, 1, 0⟩ ⟨"X", Tipo.venda, 3, 1, 0⟩
    [⟨"X", Tipo.compra, 1, 1, 0⟩, ⟨"X", Tipo.venda, 1, 1, 0⟩]
    (fun _ => none) (fun _ => none) [] 0 0 0 "X"
    rfl (by norm_num) (by norm_num) rfl rfl
    (by norm_num [montaPosicoes, processaTransacoes, passo, atualiza,
                  applyTxn, epsilon, lookupEstado])
    (by norm_num [processaTransacoes, passo, atualiza, applyTxn, epsilon,
                  lookupEstado])

/-- C6: in the aggregation of src/app.py lines 679-711 run with pure price
and prediction oracles, every emitted position has positive quantity, its
preco_atual is the oracle's answer for its symbol, valor_atual is price *
quantity when the price is known and 0 otherwise, and the unrealized pnl
is (price - average cost) * quantity when the price is known and 0
otherwise; the total market value sums all valor_atual, the total gain
sums exactly the strictly positive pnl values, and the total loss sums
exactly the non-positive ones - so zero-pnl and unknown-price positions
contribute 0 to the loss bucket, and the totals are plain numbers. -/
theorem c6_totais_carteira (estado : List (String × LotState))
    (pA pP : String → Option ℚ) (pos : List (String × Posicao)) (tv tg tl : ℚ)
    (h : montaPosicoes (fun u => Except.ok (pA u)) (fun u => Except.ok (pP u))
        estado = Except.ok (pos, tv, tg, tl)) :
    (∀ s p, (s, p) ∈ pos →
        0 < p.quantidade ∧
        p.preco_atual = pA s ∧
        p.valor_atual = (match p.preco_atual with
                         | some pr => pr * p.quantidade
                         | none => 0) ∧
        p.lucro_prejuizo_nao_realizado =
          (match p.preco_atual with
           | some pr => (pr - p.preco_medio) * p.quantidade
           | none => 0)) ∧
    tv = (pos.map (fun e => e.2.valor_atual)).sum ∧
    tg = (pos.map (fun e => if 0 < e.2.lucro_prejuizo_nao_realizado
                            then e.2.lucro_prejuizo_nao_realizado else 0)).sum ∧
    tl = (pos.map (fun e => if 0 < e.2.lucro_prejuizo_nao_realizado
                            then 0 else e.2.lucro_prejuizo_nao_realizado)).sum := by
  induction estado generalizing pos tv tg tl with
  | nil =>
      simp only [montaPosicoes, Except.ok.injEq, Prod.mk.injEq] at h
      obtain ⟨h1, h2, h3, h4⟩ := h
      subst h1; subst h2; subst h3; subst h4
      refine ⟨?_, by simp, by simp, by simp⟩
      intro s p hp
      cases hp
  | cons kv resto ih =>
      obtain ⟨s0, st0⟩ := kv
      by_cases h0 : 0 < st0.quantidade
      · simp only [montaPosicoes, if_pos h0] at h
        cases hres : montaPosicoes (fun u => Except.ok (pA u))
            (fun u => Except.ok (pP u)) resto with
        | error e => rw [hres] at h; cases h
        | ok resto_res =>
            obtain ⟨pos1, tv1, tg1, tl1⟩ := resto_res
            rw [hres] at h
            simp only [Except.ok.injEq, Prod.mk.injEq] at h
            obtain ⟨hpos, htv, htg, htl⟩ := h
            obtain ⟨ihmem, ihtv, ihtg, ihtl⟩ := ih pos1 tv1 tg1 tl1 hres
            subst hpos; subst htv; subst htg; subst htl
            refine ⟨?_, ?_, ?_, ?_⟩
            · intro s p hp
              rcases List.mem_cons.mp hp with heq | hrest
              · injection heq with hs hP
                subst hs
                subst hP
                refine ⟨h0, rfl, ?_, ?_⟩
                · cases hpa : pA s <;> simp [hpa]
                · cases hpa : pA s <;> simp [hpa]
              · exact ihmem s p hrest
            · cases hpa : pA s0 <;> simp [hpa, ihtv]
            · cases hpa : pA s0 <;> simp [hpa, ihtg]
            · cases hpa : pA s0 <;> simp [hpa, ihtl]
      · simp only [montaPosicoes, if_neg h0] at h
        exact ih pos tv tg tl h

/-- Witness for C6: a two-symbol portfolio, one with a known price (7) and
one with an unknown price; totals are 14, 4 and 0. -/
theorem c6_totais_carteira_witness :
    (∀ s p, (s, p) ∈
        [("AAAA", Posicao.mk 2 5 (some 7) none 14 4 (nome_popular "AAAA") 2 14),
         ("BBBB", Posicao.mk 1 5 none none 0 0 (nome_popular "BBBB") 1 0)] →
        0 < p.quantidade ∧
        p.preco_atual = (if s = "AAAA" then some (7:ℚ) else none) ∧
        p.valor_atual = (match p.preco_atual with
                         | some pr => pr * p.quantidade
                         | none => 0) ∧
        p.lucro_prejuizo_nao_realizado =
          (match p.preco_atual with
           | some pr => (pr - p.preco_medio) * p.quantidade
           | none => 0)) ∧
    (14 : ℚ) =
      (([("AAAA", Posicao.mk 2 5 (some 7) none 14 4 (nome_popular "AAAA") 2 14),
         ("BBBB", Posicao.mk 1 5 none none 0 0 (nome_popular "BBBB") 1 0)]).map
        (fun e => e.2.valor_atual)).sum ∧
    (4 : ℚ) =
      (([("AAAA", Posicao.mk 2 5 (some 7) none 14 4 (nome_popular "AAAA") 2 14),
         ("BBBB", Posicao.mk 1 5 none none 0 0 (nome_popular "BBBB") 1 0)]).map
        (fun e => if 0 < e.2.lucro_prejuizo_nao_realizado
                  then e.2.lucro_prejuizo_nao_realizado else 0)).sum ∧
    (0 : ℚ) =
      (([("AAAA", Posicao.mk 2 5 (some 7) none 14 4 (nome_popular "AAAA") 2 14),
         ("BBBB", Posicao.mk 1 5 none none 0 0 (nome_popular "BBBB") 1 0)]).map
        (fun e => if 0 < e.2.lucro_prejuizo_nao_realizado
                  then 0 else e.2.lucro_prejuizo_nao_realizado)).sum :=
  c6_totais_carteira [("AAAA", ⟨2, 10⟩), ("BBBB", ⟨1, 5⟩)]
    (fun u => if u = "AAAA" then some 7 else none) (fun _ => none)
    [("AAAA", Posicao.mk 2 5 (some 7) none 14 4 (nome_popular "AAAA") 2 14),
     ("BBBB", Posicao.mk 1 5 none none 0 0 (nome_popular "BBBB") 1 0)]
    14 4 0
    (by simp [montaPosicoes] <;> norm_num)

/-- C7 (counterexample): the claim says no cache domain ever stores an
empty result.  fetch_news does: after a successful HTTP call that yields
zero usable articles, the empty filtered list is written to news_cache
(src/app.py line 754 stores unconditionally on the success path), so the
next call within the TTL serves the empty list instead of recomputing. -/
theorem c7_counterexample :
    (fetch_news [] 0 (some "k") (Except.ok []) "q").2 = [("q", ([], 0))] ∧
    (fetch_news [] 0 (some "k") (Except.ok []) "q").1 = [] ∧
    ([("q", ([], 0))] : Cache String (List Artigo)) ≠ [] := by
  refine ⟨rfl, rfl, by simp⟩

/-- C7 (amended): the market-history cache ignores failed and empty
fetches and stores non-empty ones; the current-price function leaves its
cache untouched whenever it returns none; the prediction gateway caches
nothing when its outcome is none; and fetch_news caches nothing on a
raised error - but a successful news response with an empty filtered
article list IS stored, as the counterexample shows. -/
theorem c7_sem_cache_de_vazios
    (cache1 : Cache (String × String × String) (List (Option ℚ)))
    (now1 : ℚ) (sim1 per1 int1 : String) (df : List (Option ℚ))
    (cache2 : Cache (String × String × String) ℚ) (now2 : ℚ)
    (fI fD : Except Unit (List (Option ℚ))) (sim2 : String)
    (cache3 : Cache String ℚ) (now3 : ℚ) (mres : Except Unit (Option ℚ))
    (sim3 : String) (c3out : Cache String ℚ)
    (cache4 : Cache String (List Artigo)) (now4 : ℚ) (key4 : Option String)
    (q4 : String)
    (hmiss : is_cache_fresh cache1 (final_simbolo_to_fetch sim1, per1, int1)
        MARKET_DATA_CACHE_TTL now1 = false)
    (hdf : df ≠ [])
    (hnone : (_get_current_price_yfinance cache2 now2 fI fD sim2).1 = none)
    (hpred : get_predicted_price_for_display cache3 now3 mres sim3 =
        Except.ok (none, c3out)) :
    (get_historical_prices_yfinance_cached cache1 now1 (Except.error ())
        sim1 per1 int1).2 = cache1 ∧
    (get_historical_prices_yfinance_cached cache1 now1 (Except.ok [])
        sim1 per1 int1).2 = cache1 ∧
    get_historical_prices_yfinance_cached cache1 now1 (Except.ok df)
        sim1 per1 int1 =
      (df, cacheGrava cache1 (final_simbolo_to_fetch sim1, per1, int1) df now1) ∧
    (_get_current_price_yfinance cache2 now2 fI fD sim2).2 = cache2 ∧
    c3out = cache3 ∧
    (fetch_news cache4 now4 key4 (Except.error ()) q4).2 = cache4 := by
  refine ⟨?_, ?_, ?_, ?_, ?_, ?_⟩
  · unfold get_historical_prices_yfinance_cached
    by_cases hf : is_cache_fresh cache1 (final_simbolo_to_fetch sim1, per1, int1)
        MARKET_DATA_CACHE_TTL now1 = true
    · simp [hf]
    · simp [hf]
  · simp only [get_historical_prices_yfinance_cached, hmiss]
    simp
  · simp only [get_historical_prices_yfinance_cached, hmiss]
    cases df with
    | nil => exact absurd rfl hdf
    | cons a l => simp
  · simp only [_get_current_price_yfinance] at hnone ⊢
    by_cases hf : is_cache_fresh cache2 (final_simbolo_to_fetch sim2, "1d", "1m")
        MARKET_DATA_CACHE_TTL now2 = true
    · simp [hf]
    · simp only [Bool.not_eq_true] at hf
      simp only [hf, Bool.false_eq_true, if_false] at hnone ⊢
      cases fI with
      | error e => simp
      | ok hist0 =>
          simp only at hnone ⊢
          cases hi : (if hist0.isEmpty then fD else Except.ok hist0) with
          | error e => simp [hi]
          | ok hist =>
              simp only [hi] at hnone ⊢
              cases hl : hist.getLast? with
              | none => simp [hl]
              | some latest =>
                  simp only [hl] at hnone ⊢
                  cases latest with
                  | none => simp
                  | some preco => simp at hnone
  · unfold get_predicted_price_for_display at hpred
    by_cases hf : is_cache_fresh cache3 (final_simbolo_to_fetch sim3)
        PREDICTION_CACHE_TTL now3 = true
    · rw [if_pos hf] at hpred
      injection hpred with h1
      exact ((Prod.mk.injEq .. ▸ h1).2).symm
    · rw [if_neg hf] at hpred
      cases mres with
      | error e => cases hpred
      | ok r =>
          cases r with
          | none =>
              injection hpred with h1
              exact ((Prod.mk.injEq .. ▸ h1).2).symm
          | some p =>
              injection hpred with h1
              exact absurd (Prod.mk.injEq .. ▸ h1).1 (by simp)
  · unfold fetch_news
    by_cases hf : is_cache_fresh cache4 q4 NEWS_CACHE_TTL now4 = true
    · simp [hf]
    · cases key4 with
      | none => simp [hf]
      | some k => simp [hf]

/-- Witness for C7 with empty caches: a failed history fetch, a one-row
successful fetch that is stored, a failed price fetch, a none prediction
and a failed news call. -/
theorem c7_sem_cache_de_vazios_witness :
    (is_cache_fresh ([] : Cache (String × String × String) (List (Option ℚ)))
        (final_simbolo_to_fetch "XYZQ", "1y", "1d") MARKET_DATA_CACHE_TTL 0 = false) ∧
    ([some (1:ℚ)] ≠ []) ∧
    ((get_historical_prices_yfinance_cached [] 0 (Except.error ()) "XYZQ" "1y" "1d").2
        = [] ∧
     (get_historical_prices_yfinance_cached [] 0 (Except.ok []) "XYZQ" "1y" "1d").2
        = [] ∧
     get_historical_prices_yfinance_cached [] 0 (Except.ok [some 1]) "XYZQ" "1y" "1d"
        = ([some 1],
           cacheGrava [] (final_simbolo_to_fetch "XYZQ", "1y", "1d") [some 1] 0) ∧
     (_get_current_price_yfinance [] 0 (Except.error ()) (Except.error ()) "XYZQ").2
        = [] ∧
     ([] : Cache String ℚ) = [] ∧
     (fetch_news [] 0 (some "k") (Except.error ()) "q").2 = []) :=
  ⟨rfl, by simp,
   c7_sem_cache_de_vazios [] 0 "XYZQ" "1y" "1d" [some 1]
     [] 0 (Except.error ()) (Except.error ()) "XYZQ"
     [] 0 (Except.ok none) "XYZQ" []
     [] 0 (some "k") "q"
     rfl (by simp) rfl rfl⟩

/-- C8 (counterexample): the claim says the prediction gateway never
propagates an exception from the model.  The gateway (src/app.py lines
603-610) has no try/except, so a raised model error passes straight
through; and the model can raise: with a sufficient training series but an
empty trailing fetch, the Close-column access at
src/predictor_model.py line 82 hits a column-less empty DataFrame and
raises KeyError. -/
theorem c8_counterexample :
    train_and_predict_price
        [some 1, some 2, some 3, some 4, some 5, some 6] [] (fun _ _ => 0) =
      Except.error () ∧
    get_predicted_price_for_display [] 0 (Except.error ()) "XYZQ" =
      Except.error () := by
  exact ⟨rfl, rfl⟩

/-- C8 (amended): a none outcome of the model is returned as "prediction
unavailable" and not cached, and a training series shorter than N_DAYS+1
rows (in particular an empty fetched history) makes the model itself
return none; but an exception raised inside the model is not caught by the
gateway and propagates, as the counterexample shows. -/
theorem c8_falha_de_predicao (cache : Cache String ℚ) (now : ℚ) (sim : String)
    (hist_1y hist_ultimos : List (Option ℚ)) (modelo : List ℚ → List ℚ → ℚ)
    (hmiss : is_cache_fresh cache (final_simbolo_to_fetch sim)
        PREDICTION_CACHE_TTL now = false)
    (hcurto : hist_1y.length < N_DAYS + 1) :
    get_predicted_price_for_display cache now (Except.ok none) sim =
      Except.ok (none, cache) ∧
    train_and_predict_price hist_1y hist_ultimos modelo = Except.ok none := by
  constructor
  · simp only [get_predicted_price_for_display, hmiss]
    simp
  · unfold train_and_predict_price
    rw [if_pos hcurto]

/-- Witness for C8 on an empty cache and an empty training series. -/
theorem c8_falha_de_predicao_witness :
    (is_cache_fresh ([] : Cache String ℚ) (final_simbolo_to_fetch "XYZQ")
        PREDICTION_CACHE_TTL 0 = false) ∧
    (([] : List (Option ℚ)).length < N_DAYS + 1) ∧
    (get_predicted_price_for_display [] 0 (Except.ok none) "XYZQ" =
        Except.ok (none, []) ∧
     train_and_predict_price [] [] (fun _ _ => 0) = Except.ok none) :=
  ⟨rfl, by simp [N_DAYS],
   c8_falha_de_predicao [] 0 "XYZQ" [] [] (fun _ _ => 0) rfl (by simp [N_DAYS])⟩

/-- C9 (counterexample): the claim says an input containing one of ^ - =
is used as-is, uppercased.  The canonicalization block of
get_historical_prices_yfinance_cached (src/app.py lines 519-524) never
upper-cases that branch: lowercase "btc-usd" is returned verbatim, not as
"BTC-USD". -/
theorem c9_counterexample :
    final_simbolo_to_fetch "btc-usd" = "btc-usd" ∧ "btc-usd" ≠ "BTC-USD" := by
  exact ⟨by decide, by decide⟩

/-- C9 (amended): exact case-insensitive alias match wins; otherwise an
input containing one of ^ - = or ending in a known market suffix is used
as-is VERBATIM (not uppercased) in the market-data canonicalizer, while
the add_transaction variant upper-cases its final result; otherwise an
alphanumeric input of length 4-6 gets ".SA" appended and is uppercased.
The three claimed examples all hold. -/
theorem c9_canonicalizacao (s1 t1 s2 s3 : String)
    (halias : SYMBOL_MAPPING.lookup (py_upper s1) = some t1) (hne : t1 ≠ s1)
    (hnomap2 : SYMBOL_MAPPING.lookup (py_upper s2) = none)
    (hmarca : py_contains s2 '^' = true ∨ py_contains s2 '-' = true ∨
        py_contains s2 '=' = true ∨
        SUFIXOS_MERCADO.any (fun suf => py_endswith (py_upper s2) suf) = true)
    (hnomap3 : SYMBOL_MAPPING.lookup (py_upper s3) = none)
    (hsem : ¬ (py_contains s3 '^' = true ∨ py_contains s3 '-' = true ∨
        py_contains s3 '=' = true))
    (hsuf : ¬ (SUFIXOS_MERCADO.any (fun suf => py_endswith (py_upper s3) suf) = true))
    (hlen : 4 ≤ s3.length ∧ s3.length ≤ 6)
    (hal : py_isalnum s3 = true) :
    final_simbolo_to_fetch s1 = t1 ∧
    final_simbolo_to_fetch s2 = s2 ∧
    final_simbolo_to_fetch s3 = py_upper s3 ++ ".SA" ∧
    final_simbolo_to_fetch "petrobras" = "PETR4.SA" ∧
    final_simbolo_to_fetch "XYZQ" = "XYZQ.SA" ∧
    final_simbolo_to_fetch "BTC-USD" = "BTC-USD" ∧
    simbolo_ativo_yf "PETROBRAS" = "PETR4.SA" ∧
    simbolo_ativo_yf "XYZQ" = "XYZQ.SA" ∧
    simbolo_ativo_yf "BTC-USD" = "BTC-USD" := by
  refine ⟨?_, ?_, ?_, by decide, by decide, by decide, by decide, by decide, by decide⟩
  · simp only [final_simbolo_to_fetch, halias, Option.getD_some]
    rw [if_neg (fun hc => hne hc.1)]
  · have hcond : ¬ (¬ (py_contains s2 '^' = true ∨ py_contains s2 '-' = true ∨
             py_contains s2 '=' = true)
        ∧ ¬ (SUFIXOS_MERCADO.any (fun suf => py_endswith (py_upper s2) suf) = true)) := by
      rintro ⟨hno, hnosuf⟩
      rcases hmarca with h | h | h | h
      · exact hno (Or.inl h)
      · exact hno (Or.inr (Or.inl h))
      · exact hno (Or.inr (Or.inr h))
      · exact hnosuf h
    simp only [final_simbolo_to_fetch, hnomap2, Option.getD_none,
      eq_self_iff_true, true_and]
    rw [if_neg hcond]
  · simp only [final_simbolo_to_fetch, hnomap3, Option.getD_none,
      eq_self_iff_true, true_and]
    rw [if_pos ⟨hsem, hsuf⟩, if_pos ⟨hlen.1, hlen.2, hal⟩]

/-- Witness for C9: alias "vale", suffixed "msft.to" (returned verbatim in
lowercase), and bare 4-letter "xyzq". -/
theorem c9_canonicalizacao_witness :
    (SYMBOL_MAPPING.lookup (py_upper "vale") = some "VALE3.SA") ∧
    ("VALE3.SA" ≠ "vale") ∧
    (SYMBOL_MAPPING.lookup (py_upper "msft.to") = none) ∧
    (SYMBOL_MAPPING.lookup (py_upper "xyzq") = none) ∧
    (final_simbolo_to_fetch "vale" = "VALE3.SA" ∧
     final_simbolo_to_fetch "msft.to" = "msft.to" ∧
     final_simbolo_to_fetch "xyzq" = py_upper "xyzq" ++ ".SA" ∧
     final_simbolo_to_fetch "petrobras" = "PETR4.SA" ∧
     final_simbolo_to_fetch "XYZQ" = "XYZQ.SA" ∧
     final_simbolo_to_fetch "BTC-USD" = "BTC-USD" ∧
     simbolo_ativo_yf "PETROBRAS" = "PETR4.SA" ∧
     simbolo_ativo_yf "XYZQ" = "XYZQ.SA" ∧
     simbolo_ativo_yf "BTC-USD" = "BTC-USD") :=
  ⟨by decide, by decide, by decide, by decide,
   c9_canonicalizacao "vale" "VALE3.SA" "msft.to" "xyzq"
     (by decide) (by decide) (by decide)
     (Or.inr (Or.inr (Or.inr (by decide))))
     (by decide) (by decide) (by decide) (by decide) (by decide)⟩

/-- C10: when the portfolio cache is not fresh and either the
transaction-log read raises or the aggregation raises (for instance
through the uncaught prediction error of C8), calcular_posicoes_carteira
returns the empty position map with all three totals 0.0 and leaves the
portfolio cache exactly as it was - the failed result is not stored
(src/app.py lines 713-721). -/
theorem c10_erro_snapshot_vazio (cache : Cache ℕ Snapshot) (now : ℚ)
    (user_id : ℕ) (pA pP : String → Except Unit (Option ℚ)) (txns : List Txn)
    (hmiss : is_cache_fresh cache user_id PORTFOLIO_CACHE_TTL now = false)
    (hagg : montaPosicoes pA pP (processaTransacoes txns) = Except.error ()) :
    calcular_posicoes_carteira cache now user_id (Except.error ()) pA pP =
      (([], 0, 0, 0), cache) ∧
    calcular_posicoes_carteira cache now user_id (Except.ok txns) pA pP =
      (([], 0, 0, 0), cache) := by
  constructor
  · simp only [calcular_posicoes_carteira, corpo_calculo, hmiss]
    simp
  · simp only [calcular_posicoes_carteira, corpo_calculo, hmiss, hagg]
    simp

/-- Witness for C10: empty cache, a one-buy history and a price oracle
that always raises. -/
theorem c10_erro_snapshot_vazio_witness :
    (is_cache_fresh ([] : Cache ℕ Snapshot) 1 PORTFOLIO_CACHE_TTL 0 = false) ∧
    (montaPosicoes (fun _ => Except.error ()) (fun _ => Except.ok none)
        (processaTransacoes [⟨"X", Tipo.compra, 1, 1, 0⟩]) = Except.error ()) ∧
    (calcular_posicoes_carteira [] 0 1 (Except.error ())
        (fun _ => Except.error ()) (fun _ => Except.ok none) =
      (([], 0, 0, 0), []) ∧
     calcular_posicoes_carteira [] 0 1 (Except.ok [⟨"X", Tipo.compra, 1, 1, 0⟩])
        (fun _ => Except.error ()) (fun _ => Except.ok none) =
      (([], 0, 0, 0), [])) :=
  ⟨rfl,
   by norm_num [montaPosicoes, processaTransacoes, passo, atualiza, applyTxn],
   c10_erro_snapshot_vazio [] 0 1 (fun _ => Except.error ())
     (fun _ => Except.ok none) [⟨"X", Tipo.compra, 1, 1, 0⟩] rfl
     (by norm_num [montaPosicoes, processaTransacoes, passo, atualiza, applyTxn])⟩
